import Mathlib

/-!
# Outliner collection operators (`outliner_collections.c`)

A shallow embedding of the collection operators of the outliner editor.

Conventions of the embedding:

* A C pointer to a `SceneCollection` or `LayerCollection` is the node it points to, which carries
  its address in the field `addr`; pointer comparison (`==`) compares addresses. A pointer that
  may be `NULL` is an `Option`.
* A `ListBase` of nodes linked through `next` is a `List`, in list order.
* C `int` values are mathematical integers; signed overflow is undefined in C, so the embedding
  describes the runs in which every counter stays representable.
* The functions of the host application that are only called here (`BKE_*`, `DEG_*`, `WM_*`,
  reports) are not interpreted: every call is appended, with its arguments, to a trace of `Call`s.
-/

namespace Outliner

/-! ## Data model -/

/-- The struct `SceneCollection`: its address, its `name` and the nested `scene_collections`. -/
inductive SceneCollection where
  | mk (addr : Nat) (name : String) (scene_collections : List SceneCollection)

namespace SceneCollection

/-- Address of the node (the value of a pointer to it). -/
def addr : SceneCollection → Nat
  | mk a _ _ => a

/-- Field `sc->name`. -/
def name : SceneCollection → String
  | mk _ n _ => n

/-- Field `sc->scene_collections`. -/
def scene_collections : SceneCollection → List SceneCollection
  | mk _ _ l => l

end SceneCollection

/-- The struct `EnumPropertyItem`; a `NULL` string is `none`. -/
structure EnumPropertyItem where
  value : Int
  identifier : Option String
  icon : Int
  name : Option String
  description : Option String
  deriving DecidableEq, Repr

/-! ## Depth-first listing used by the statements -/

/-- Depth-first pre-order listing of a forest of scene collections: each collection before its
nested collections, siblings in list order. -/
def preorder : List SceneCollection → List SceneCollection
  | [] => []
  | SceneCollection.mk a n nested :: rest =>
    SceneCollection.mk a n nested :: (preorder nested ++ preorder rest)

/-- Number of collections of a forest. -/
def forestSize (lb : List SceneCollection) : Nat := (preorder lb).length

/-! ## `scene_collection_from_index` -/

/-- The function `scene_collection_from_index(lb, number, i)`: the counter `*i` is passed in and
the final counter is returned next to the result. -/
def scene_collection_from_index (number : Int) :
    List SceneCollection → Int → Option SceneCollection × Int
  | [], i => (none, i)
  | SceneCollection.mk a n nested :: rest, i =>
    if i = number then
      (some (SceneCollection.mk a n nested), i)
    else
      match scene_collection_from_index number nested (i + 1) with
      | (some sc_nested, i1) => (some sc_nested, i1)
      | (none, i1) => scene_collection_from_index number rest i1

/-! ## Remaining data model -/

/-- The struct `LayerCollection`: its address, the scene collection it shows, its `flag` and the
nested `layer_collections`. -/
inductive LayerCollection where
  | mk (addr : Nat) (scene_collection : Option SceneCollection) (flag : Nat)
      (layer_collections : List LayerCollection)

namespace LayerCollection

/-- Address of the node (the value of a pointer to it). -/
def addr : LayerCollection → Nat
  | mk a _ _ _ => a

/-- Field `lc->scene_collection`. -/
def scene_collection : LayerCollection → Option SceneCollection
  | mk _ sc _ _ => sc

/-- Field `lc->flag`. -/
def flag : LayerCollection → Nat
  | mk _ _ f _ => f

/-- Field `lc->layer_collections`. -/
def layer_collections : LayerCollection → List LayerCollection
  | mk _ _ _ l => l

end LayerCollection

/-- What `TREESTORE(te)->type` and `te->directdata` hold together: the type tag fixes the C type
of the object behind the untyped pointer, so the two are one tagged value. An element of type
`TSE_LAYER_COLLECTION` always points to a layer collection (the source dereferences it
unconditionally); every other type is `other` with its numeric tag. -/
inductive TreeElementData where
  | TSE_SCENE_COLLECTION (directdata : Option SceneCollection)
  | TSE_LAYER_COLLECTION (directdata : LayerCollection)
  | other (type : Nat)

/-- The struct `TreeElement` with the fields read here: `name`, `flag`, the flag of its tree
store element (`TREESTORE(te)->flag`), type and payload, and the `subtree` list. -/
inductive TreeElement where
  | mk (name : String) (flag : Nat) (tselem_flag : Nat) (data : TreeElementData)
      (subtree : List TreeElement)

namespace TreeElement

/-- Field `te->name`. -/
def name : TreeElement → String
  | mk n _ _ _ _ => n

/-- Field `te->flag`. -/
def flag : TreeElement → Nat
  | mk _ f _ _ _ => f

/-- Field `TREESTORE(te)->flag`. -/
def tselem_flag : TreeElement → Nat
  | mk _ _ f _ _ => f

/-- Type tag and payload of the element. -/
def data : TreeElement → TreeElementData
  | mk _ _ _ d _ => d

/-- Field `te->subtree`. -/
def subtree : TreeElement → List TreeElement
  | mk _ _ _ _ s => s

end TreeElement

/-- Values of `TreeTraversalAction` returned in this file. -/
inductive TreeTraversalAction where
  | TRAVERSE_CONTINUE
  | TRAVERSE_SKIP_CHILDS
  deriving DecidableEq, Repr

/-- Operator return values used in this file. -/
inductive OperatorReturn where
  | OPERATOR_CANCELLED
  | OPERATOR_FINISHED
  deriving DecidableEq, Repr

/-- Report types. -/
inductive ReportType where
  | RPT_INFO
  | RPT_WARNING
  | RPT_ERROR
  deriving DecidableEq, Repr

/-- The notifier constants combined with `|` in this file. -/
inductive NotifierFlag where
  | NC_SCENE
  | ND_LAYER
  | ND_OB_SELECT
  | ND_LAYER_CONTENT
  deriving DecidableEq, Repr

/-- A `Group` data-block: its address and `id.name` (two characters of type code, then the
name). -/
structure Group where
  addr : Nat
  id_name : String

/-- The struct `Main`: its address and the list of groups. -/
structure Main where
  addr : Nat
  group : List Group

/-- The struct `Scene`: its address (also the address of `scene->id`) and the master
collection. -/
structure Scene where
  addr : Nat
  collection : SceneCollection

/-- The struct `SceneLayer`: its address, `active_collection` and the top-level
`layer_collections`. -/
structure SceneLayer where
  addr : Nat
  active_collection : Int
  layer_collections : List LayerCollection

/-- The struct `SpaceOops`: its address and the display `tree`. -/
structure SpaceOops where
  addr : Nat
  tree : List TreeElement

/-- The context `bContext`, as far as this file queries it. -/
structure bContext where
  main : Main
  scene : Scene
  scene_layer : SceneLayer
  layer_collection : Option LayerCollection
  space_outliner : Option SpaceOops

/-- The struct `wmOperator`: the RNA properties behind `op->ptr`, by name, and the address of
`op->reports`. -/
structure wmOperator where
  ptr : String → Int
  reports : Nat

/-- The struct `wmEvent`, with the modifier read in this file. -/
structure wmEvent where
  shift : Int

/-- One call into the host application, with its arguments, or one `BLI_assert` with the truth
value of its condition. -/
inductive Call where
  | BKE_report (reports : Nat) (type : ReportType) (message : String)
  | BKE_collection_link (sl : Nat) (sc : Option SceneCollection)
  | BKE_collection_unlink (sl : Nat) (lc : LayerCollection)
  | BKE_collection_add (id : Nat) (parent : Option SceneCollection) (type : Int)
      (name : Option String)
  | BKE_collection_group_set (scene : Nat) (sc : Option SceneCollection) (group : Group)
  | BKE_collection_remove (scene : Nat) (sc : SceneCollection)
  | BKE_collection_enable (sl : Nat) (lc : LayerCollection)
  | BKE_collection_disable (sl : Nat) (lc : LayerCollection)
  | outliner_cleanup_tree (soops : Nat)
  | DEG_relations_tag_update (bmain : Nat)
  | DEG_id_tag_update (id : Nat) (flag : Int)
  | WM_main_add_notifier (type : List NotifierFlag) (reference : Option Nat)
  | WM_event_add_notifier (type : List NotifierFlag) (reference : Option Nat)
  | BLI_assert (a : Bool)

namespace Call

/-- The call tags the dependency graph for update. -/
def isDepsgraphTag : Call → Bool
  | DEG_relations_tag_update _ => true
  | DEG_id_tag_update _ _ => true
  | _ => false

/-- The call emits a UI notifier. -/
def isNotifier : Call → Bool
  | WM_main_add_notifier _ _ => true
  | WM_event_add_notifier _ _ => true
  | _ => false

/-- The call adds a report. -/
def isReport : Call → Bool
  | BKE_report _ _ _ => true
  | _ => false

/-- The call is `BKE_collection_remove`. -/
def isRemove : Call → Bool
  | BKE_collection_remove _ _ => true
  | _ => false

end Call

/-! ## Context and RNA accessors -/

/-- The accessor `CTX_data_main(C)`. -/
def CTX_data_main (C : bContext) : Main := C.main

/-- The accessor `CTX_data_scene(C)`. -/
def CTX_data_scene (C : bContext) : Scene := C.scene

/-- The accessor `CTX_data_scene_layer(C)`. -/
def CTX_data_scene_layer (C : bContext) : SceneLayer := C.scene_layer

/-- The accessor `CTX_data_layer_collection(C)`. -/
def CTX_data_layer_collection (C : bContext) : Option LayerCollection := C.layer_collection

/-- The accessor `CTX_wm_space_outliner(C)`. -/
def CTX_wm_space_outliner (C : bContext) : Option SpaceOops := C.space_outliner

/-- The accessor `BKE_collection_master(scene)`: the master collection of the scene. -/
def BKE_collection_master (scene : Scene) : SceneCollection := scene.collection

/-- The property read `RNA_enum_get(ptr, name)`. -/
def RNA_enum_get (ptr : String → Int) (name : String) : Int := ptr name

/-- The property read `RNA_int_get(ptr, name)`. -/
def RNA_int_get (ptr : String → Int) (name : String) : Int := ptr name

/-- Modelled from the spec: `BLI_findindex` (BLI_listbase.h) is not among the sources. By the
doc comment of `collection_unlink_poll` the lookup decides whether the collection is directly
linked to the layer: the position of the link with this address in the list, `-1` when the list
has none. -/
def BLI_findindex (listbase : List LayerCollection) (vlink : LayerCollection) : Int :=
  match listbase.findIdx? (fun link => link.addr == vlink.addr) with
  | some n => (n : Int)
  | none => -1

/-- Modelled from the spec: `BLI_findlink` (BLI_listbase.h) is not among the sources: the link
at position `number`, `NULL` when there is none. -/
def BLI_findlink (listbase : List Group) (number : Int) : Option Group :=
  if number < 0 then none else listbase[number.toNat]?

/-! ## Operators -/

/-- The function `outliner_collection_active`; `TODO_LAYER_OPERATORS` is an empty marker. -/
def outliner_collection_active (C : bContext) : Option LayerCollection :=
  CTX_data_layer_collection C

/-- The function `outliner_scene_collection_from_tree_element`. -/
def outliner_scene_collection_from_tree_element (te : TreeElement) : Option SceneCollection :=
  match te.data with
  | TreeElementData.TSE_SCENE_COLLECTION directdata => directdata
  | TreeElementData.TSE_LAYER_COLLECTION lc => lc.scene_collection
  | TreeElementData.other _ => none

/-- The function `collection_link_exec`: return value and calls made, in order. -/
def collection_link_exec (C : bContext) (op : wmOperator) : OperatorReturn × List Call :=
  let scene := CTX_data_scene C
  let sl := CTX_data_scene_layer C
  let sc_master := BKE_collection_master scene
  let scene_collection_index := RNA_enum_get op.ptr "scene_collection"
  let found : Option SceneCollection × List Call :=
    if scene_collection_index = 0 then
      (some sc_master, [])
    else
      let sc := (scene_collection_from_index scene_collection_index
        sc_master.scene_collections 1).1
      (sc, [Call.BLI_assert sc.isSome])
  (OperatorReturn.OPERATOR_FINISHED,
    found.2 ++
    [Call.BKE_collection_link sl.addr found.1,
     Call.DEG_relations_tag_update (CTX_data_main C).addr,
     Call.DEG_id_tag_update scene.addr 0,
     Call.WM_main_add_notifier [NotifierFlag.NC_SCENE, NotifierFlag.ND_LAYER] none])

/-- The variables that `collection_scene_collection_itemf_recursive` reaches through
pointers. -/
structure ItemfState where
  tmp : EnumPropertyItem
  item : List EnumPropertyItem
  totitem : Int
  value : Int

/-- Modelled from the spec: `RNA_enum_item_add` (RNA_define.h) is not among the sources: a copy
of `tmp` is appended to the item array and counted. -/
def RNA_enum_item_add (st : ItemfState) : ItemfState :=
  { st with item := st.item ++ [st.tmp], totitem := st.totitem + 1 }

/-- Modelled from the spec: `RNA_enum_item_end` (RNA_define.h) is not among the sources: the
array is closed by the terminating item `{0, NULL, 0, NULL, NULL}`. -/
def RNA_enum_item_end (st : ItemfState) : ItemfState :=
  { st with item := st.item ++ [EnumPropertyItem.mk 0 none 0 none none],
            totitem := st.totitem + 1 }

mutual
/-- The function `collection_scene_collection_itemf_recursive`; `ICON_COLLAPSEMENU` is a constant
of the host application. -/
def collection_scene_collection_itemf_recursive (ICON_COLLAPSEMENU : Int) (st : ItemfState) :
    SceneCollection → ItemfState
  | SceneCollection.mk _ name nested =>
    let st1 := { st with tmp := { st.tmp with value := st.value, icon := ICON_COLLAPSEMENU,
                                              identifier := some name, name := some name } }
    let st2 := RNA_enum_item_add st1
    let st3 := { st2 with value := st2.value + 1 }
    collection_scene_collection_itemf_recursive_loop ICON_COLLAPSEMENU st3 nested
/-- The `for` loop of `collection_scene_collection_itemf_recursive` over the nested
collections. -/
def collection_scene_collection_itemf_recursive_loop (ICON_COLLAPSEMENU : Int) (st : ItemfState) :
    List SceneCollection → ItemfState
  | [] => st
  | ncs :: rest =>
    collection_scene_collection_itemf_recursive_loop ICON_COLLAPSEMENU
      (collection_scene_collection_itemf_recursive ICON_COLLAPSEMENU st ncs) rest
end

/-- The function `collection_scene_collection_itemf`: the item array and `*r_free`. -/
def collection_scene_collection_itemf (ICON_COLLAPSEMENU : Int) (C : bContext) :
    List EnumPropertyItem × Bool :=
  let st0 : ItemfState :=
    { tmp := EnumPropertyItem.mk 0 (some "") 0 (some "") (some ""), item := [], totitem := 0,
      value := 0 }
  let scene := CTX_data_scene C
  let sc := BKE_collection_master scene
  let st1 := collection_scene_collection_itemf_recursive ICON_COLLAPSEMENU st0 sc
  let st2 := RNA_enum_item_end st1
  (st2.item, true)

/-- The function `collection_unlink_poll`. -/
def collection_unlink_poll (C : bContext) : Int :=
  match outliner_collection_active C with
  | none => 0
  | some lc =>
    let sl := CTX_data_scene_layer C
    if BLI_findindex sl.layer_collections lc ≠ -1 then 1 else 0

/-- The function `collection_unlink_exec`. -/
def collection_unlink_exec (C : bContext) (op : wmOperator) : OperatorReturn × List Call :=
  let soops := CTX_wm_space_outliner C
  match outliner_collection_active C with
  | none =>
    (OperatorReturn.OPERATOR_CANCELLED,
      [Call.BKE_report op.reports ReportType.RPT_ERROR "Active element is not a collection"])
  | some lc =>
    let sl := CTX_data_scene_layer C
    (OperatorReturn.OPERATOR_FINISHED,
      [Call.BKE_collection_unlink sl.addr lc] ++
      (match soops with
       | some so => [Call.outliner_cleanup_tree so.addr]
       | none => []) ++
      [Call.DEG_relations_tag_update (CTX_data_main C).addr,
       Call.DEG_id_tag_update (CTX_data_scene C).addr 0,
       Call.WM_main_add_notifier [NotifierFlag.NC_SCENE, NotifierFlag.ND_LAYER] none])

/-- The function `collection_new_exec`. The constant `COLLECTION_TYPE_GROUP` and the pointer
returned by `BKE_collection_add` come from the host application; `none` is the dereference of a
`NULL` group. -/
def collection_new_exec (COLLECTION_TYPE_GROUP : Int)
    (BKE_collection_add : Nat → Option SceneCollection → Int → Option String →
      Option SceneCollection)
    (C : bContext) (op : wmOperator) : Option (OperatorReturn × List Call) :=
  let bmain := CTX_data_main C
  let scene := CTX_data_scene C
  let scene_layer := CTX_data_scene_layer C
  let collection_type := RNA_enum_get op.ptr "type"
  let tail (scene_collection : Option SceneCollection) : List Call :=
    [Call.BKE_collection_link scene_layer.addr scene_collection,
     Call.DEG_relations_tag_update bmain.addr,
     Call.WM_main_add_notifier [NotifierFlag.NC_SCENE, NotifierFlag.ND_LAYER] none]
  if collection_type = COLLECTION_TYPE_GROUP then
    match BLI_findlink bmain.group (RNA_enum_get op.ptr "group") with
    | none => none
    | some group =>
      let name := some (group.id_name.drop 2)
      let scene_collection := BKE_collection_add scene.addr none collection_type name
      some (OperatorReturn.OPERATOR_FINISHED,
        [Call.BKE_collection_add scene.addr none collection_type name,
         Call.BKE_collection_group_set scene.addr scene_collection group,
         Call.DEG_id_tag_update scene.addr 0] ++ tail scene_collection)
  else
    let scene_collection := BKE_collection_add scene.addr none collection_type none
    some (OperatorReturn.OPERATOR_FINISHED,
      [Call.BKE_collection_add scene.addr none collection_type none] ++ tail scene_collection)

/-- The function `collection_override_new_invoke`; `TODO_LAYER_OPERATORS` and
`TODO_LAYER_OVERRIDE` are empty markers. -/
def collection_override_new_invoke (_C : bContext) (op : wmOperator) (_event : wmEvent) :
    OperatorReturn × List Call :=
  (OperatorReturn.OPERATOR_CANCELLED,
    [Call.BKE_report op.reports ReportType.RPT_ERROR
      "OUTLINER_OT_collections_override_new not implemented yet"])

/-- The struct `CollectionDeleteData`. -/
structure CollectionDeleteData where
  scene : Scene
  soops : SpaceOops

/-- The function `collection_delete_cb`: the action returned and the calls made so far. -/
def collection_delete_cb (te : TreeElement) (customdata : CollectionDeleteData)
    (trace : List Call) : TreeTraversalAction × List Call :=
  let data := customdata
  match outliner_scene_collection_from_tree_element te with
  | none => (TreeTraversalAction.TRAVERSE_SKIP_CHILDS, trace)
  | some scene_collection =>
    if scene_collection.addr = (BKE_collection_master data.scene).addr then
      (TreeTraversalAction.TRAVERSE_CONTINUE, trace)
    else
      (TreeTraversalAction.TRAVERSE_CONTINUE,
        trace ++ [Call.BKE_collection_remove data.scene.addr scene_collection])

/-- Modelled from the spec: the filter of `outliner_tree_traverse` (the function is not among the
sources). A node matches a flag mask when it has a bit of the mask; the mask `0`, which the delete
operator passes for the element flags, filters nothing. -/
def outliner_tree_traverse_match (filter_te_flag filter_tselem_flag : Nat) (te : TreeElement) :
    Bool :=
  (filter_te_flag == 0 || te.flag &&& filter_te_flag != 0) &&
  (filter_tselem_flag == 0 || te.tselem_flag &&& filter_tselem_flag != 0)

/-- Modelled from the spec: `outliner_tree_traverse` is not among the sources. Depth-first,
pre-order, children in stored order; the visitor is called on every node that matches the filter,
with the context threaded through; a node that does not match is still descended into; when the
visitor returns `TRAVERSE_SKIP_CHILDS` the children of that node are not descended into and the
traversal goes on with the next sibling. -/
def outliner_tree_traverse {σ : Type} (filter_te_flag filter_tselem_flag : Nat)
    (func : TreeElement → σ → TreeTraversalAction × σ) : List TreeElement → σ → σ
  | [], customdata => customdata
  | TreeElement.mk name flag tselem_flag data subtree :: rest, customdata =>
    if outliner_tree_traverse_match filter_te_flag filter_tselem_flag
        (TreeElement.mk name flag tselem_flag data subtree) then
      match func (TreeElement.mk name flag tselem_flag data subtree) customdata with
      | (TreeTraversalAction.TRAVERSE_SKIP_CHILDS, customdata1) =>
        outliner_tree_traverse filter_te_flag filter_tselem_flag func rest customdata1
      | (TreeTraversalAction.TRAVERSE_CONTINUE, customdata1) =>
        outliner_tree_traverse filter_te_flag filter_tselem_flag func rest
          (outliner_tree_traverse filter_te_flag filter_tselem_flag func subtree customdata1)
    else
      outliner_tree_traverse filter_te_flag filter_tselem_flag func rest
        (outliner_tree_traverse filter_te_flag filter_tselem_flag func subtree customdata)

/-- The function `collection_delete_exec`; the constant `TSE_SELECTED` comes from the host
application, `none` is the dereference of a `NULL` outliner space. -/
def collection_delete_exec (TSE_SELECTED : Nat) (C : bContext) (_op : wmOperator) :
    Option (OperatorReturn × List Call) :=
  let scene := CTX_data_scene C
  match CTX_wm_space_outliner C with
  | none => none
  | some soops =>
    let data : CollectionDeleteData := { scene := scene, soops := soops }
    let trace := outliner_tree_traverse 0 TSE_SELECTED
      (fun te trace => collection_delete_cb te data trace) soops.tree []
    some (OperatorReturn.OPERATOR_FINISHED,
      trace ++
      [Call.DEG_relations_tag_update (CTX_data_main C).addr,
       Call.DEG_id_tag_update scene.addr 0,
       Call.WM_main_add_notifier [NotifierFlag.NC_SCENE, NotifierFlag.ND_LAYER] none])

/-- The function `collection_select_exec`: return value, the scene layer after the store to
`sl->active_collection`, and the calls made. -/
def collection_select_exec (C : bContext) (op : wmOperator) :
    OperatorReturn × SceneLayer × List Call :=
  let sl := CTX_data_scene_layer C
  let collection_index := RNA_int_get op.ptr "collection_index"
  (OperatorReturn.OPERATOR_FINISHED,
    { sl with active_collection := collection_index },
    [Call.WM_main_add_notifier [NotifierFlag.NC_SCENE, NotifierFlag.ND_LAYER] none])

/-- The macro `ACTION_DISABLE`. -/
def ACTION_DISABLE : Int := 0

/-- The macro `ACTION_ENABLE`. -/
def ACTION_ENABLE : Int := 1

/-- The macro `ACTION_TOGGLE`. -/
def ACTION_TOGGLE : Int := 2

/-- The function `collection_toggle_exec`; the flag `COLLECTION_DISABLED` comes from the host
application, `none` is the dereference of a `NULL` pointer (no active layer collection, or a
collection without scene collection when its name is reported). -/
def collection_toggle_exec (COLLECTION_DISABLED : Nat) (C : bContext) (op : wmOperator) :
    Option (OperatorReturn × List Call) :=
  let bmain := CTX_data_main C
  let scene := CTX_data_scene C
  let scene_layer := CTX_data_scene_layer C
  let action := RNA_enum_get op.ptr "action"
  let tail : List Call :=
    [Call.DEG_relations_tag_update bmain.addr,
     Call.DEG_id_tag_update scene.addr 0,
     Call.WM_event_add_notifier [NotifierFlag.NC_SCENE, NotifierFlag.ND_OB_SELECT]
       (some scene.addr),
     Call.WM_event_add_notifier [NotifierFlag.NC_SCENE, NotifierFlag.ND_LAYER_CONTENT]
       (some scene.addr)]
  match CTX_data_layer_collection C with
  | none => none
  | some layer_collection =>
    if layer_collection.flag &&& COLLECTION_DISABLED ≠ 0 then
      if action = ACTION_TOGGLE ∨ action = ACTION_ENABLE then
        some (OperatorReturn.OPERATOR_FINISHED,
          [Call.BKE_collection_enable scene_layer.addr layer_collection] ++ tail)
      else
        match layer_collection.scene_collection with
        | none => none
        | some sc =>
          some (OperatorReturn.OPERATOR_CANCELLED,
            [Call.BKE_report op.reports ReportType.RPT_ERROR
              ("Layer collection " ++ sc.name ++ " already disabled")])
    else
      if action = ACTION_TOGGLE ∨ action = ACTION_DISABLE then
        some (OperatorReturn.OPERATOR_FINISHED,
          [Call.BKE_collection_disable scene_layer.addr layer_collection] ++ tail)
      else
        match layer_collection.scene_collection with
        | none => none
        | some sc =>
          some (OperatorReturn.OPERATOR_CANCELLED,
            [Call.BKE_report op.reports ReportType.RPT_ERROR
              ("Layer collection " ++ sc.name ++ " already enabled")])

/-- The function `stubs_invoke`; `TODO_LAYER_OPERATORS` is an empty marker. -/
def stubs_invoke (_C : bContext) (op : wmOperator) (_event : wmEvent) :
    OperatorReturn × List Call :=
  (OperatorReturn.OPERATOR_CANCELLED,
    [Call.BKE_report op.reports ReportType.RPT_ERROR "Operator not implemented yet"])

/-! ## Observation of the traversal -/

/-- A visitor that also records, in order, the elements it is called on. -/
def visit_logged {σ : Type} (func : TreeElement → σ → TreeTraversalAction × σ)
    (te : TreeElement) (s : σ × List TreeElement) :
    TreeTraversalAction × (σ × List TreeElement) :=
  ((func te s.1).1, ((func te s.1).2, s.2 ++ [te]))

/-- The visit sequence of the traversal run by `collection_delete_exec`: the elements passed to
`collection_delete_cb`, in order. -/
def collection_delete_visits (TSE_SELECTED : Nat) (data : CollectionDeleteData)
    (tree : List TreeElement) : List TreeElement :=
  (outliner_tree_traverse 0 TSE_SELECTED
    (visit_logged (fun te trace => collection_delete_cb te data trace)) tree ([], [])).2

/-- Depth-first pre-order listing of a forest of layer collections. -/
def layer_preorder : List LayerCollection → List LayerCollection
  | [] => []
  | LayerCollection.mk a sc f nested :: rest =>
    LayerCollection.mk a sc f nested :: (layer_preorder nested ++ layer_preorder rest)

/-- Depth-first pre-order listing of a forest of tree elements. -/
def tree_preorder : List TreeElement → List TreeElement
  | [] => []
  | TreeElement.mk n f tf d subtree :: rest =>
    TreeElement.mk n f tf d subtree :: (tree_preorder subtree ++ tree_preorder rest)

/-! ## Items expected from the enum builder -/

/-- The item the enum builder is expected to add for collection `c` with value `v`. -/
def enum_item (ICON_COLLAPSEMENU : Int) (description : Option String) (v : Int)
    (c : SceneCollection) : EnumPropertyItem :=
  { value := v, identifier := some c.name, icon := ICON_COLLAPSEMENU, name := some c.name,
    description := description }

/-- Items for a listing of collections, numbered consecutively from `v`. -/
def enum_items_from (ICON_COLLAPSEMENU : Int) (description : Option String) :
    Int → List SceneCollection → List EnumPropertyItem
  | _, [] => []
  | v, c :: cs =>
    enum_item ICON_COLLAPSEMENU description v c ::
      enum_items_from ICON_COLLAPSEMENU description (v + 1) cs

/-! ## Example data -/

/-- A leaf collection. -/
def exampleLeaf (addr : Nat) (name : String) : SceneCollection :=
  SceneCollection.mk addr name []

/-- The hierarchy `Master -> [A -> [B], C]`. -/
def exampleMaster : SceneCollection :=
  SceneCollection.mk 100 "Master"
    [SceneCollection.mk 101 "A" [exampleLeaf 102 "B"], exampleLeaf 103 "C"]

/-- A scene with the example hierarchy. -/
def exampleScene : Scene := { addr := 10, collection := exampleMaster }

/-- A nested layer collection, shown under `exampleTopLayer`. -/
def exampleNestedLayer : LayerCollection :=
  LayerCollection.mk 202 (some (exampleLeaf 102 "B")) 0 []

/-- A top-level layer collection of the example layer. -/
def exampleTopLayer : LayerCollection :=
  LayerCollection.mk 201 (some (SceneCollection.mk 101 "A" [exampleLeaf 102 "B"])) 0
    [exampleNestedLayer]

/-- The example scene layer. -/
def exampleLayer : SceneLayer :=
  { addr := 20, active_collection := 0, layer_collections := [exampleTopLayer] }

/-- The example context, with the given active layer collection and outliner space. -/
def exampleContext (active : Option LayerCollection) (soops : Option SpaceOops) : bContext :=
  { main := { addr := 1, group := [] }, scene := exampleScene, scene_layer := exampleLayer,
    layer_collection := active, space_outliner := soops }

/-- An operator whose RNA properties all hold `v`. -/
def exampleOperator (v : Int) : wmOperator := { ptr := fun _ => v, reports := 30 }

/-- A selected tree element (its tree store flag is the filter mask itself). -/
def exampleElement (TSE_SELECTED : Nat) (name : String) (data : TreeElementData)
    (subtree : List TreeElement) : TreeElement :=
  TreeElement.mk name 0 TSE_SELECTED data subtree

/-- The display tree `R -> [X -> [X1, X2], Y]`, every element selected: `R` shows the master
collection, `X` is not a collection, `X1`, `X2` and `Y` show the collections `B`, `C` and `A`. -/
def exampleTree (TSE_SELECTED : Nat) : List TreeElement :=
  [exampleElement TSE_SELECTED "R" (TreeElementData.TSE_SCENE_COLLECTION (some exampleMaster))
    [exampleElement TSE_SELECTED "X" (TreeElementData.other 0)
      [exampleElement TSE_SELECTED "X1"
        (TreeElementData.TSE_SCENE_COLLECTION (some (exampleLeaf 102 "B"))) [],
       exampleElement TSE_SELECTED "X2"
        (TreeElementData.TSE_SCENE_COLLECTION (some (exampleLeaf 103 "C"))) []],
     exampleElement TSE_SELECTED "Y"
      (TreeElementData.TSE_SCENE_COLLECTION
        (some (SceneCollection.mk 101 "A" [exampleLeaf 102 "B"]))) []]]

/-- The customdata of the delete traversal in the example scene. -/
def exampleDeleteData (TSE_SELECTED : Nat) : CollectionDeleteData :=
  { scene := exampleScene, soops := { addr := 40, tree := exampleTree TSE_SELECTED } }

/-! ## Proofs -/

theorem preorder_cons (sc : SceneCollection) (rest : List SceneCollection) :
    preorder (sc :: rest) = sc :: (preorder sc.scene_collections ++ preorder rest) := by
  cases sc with
  | mk a n nested => simp [preorder, SceneCollection.scene_collections]

theorem from_index_nil (number i : Int) :
    scene_collection_from_index number [] i = (none, i) := by
  simp [scene_collection_from_index]

theorem from_index_cons (number i : Int) (sc : SceneCollection) (rest : List SceneCollection) :
    scene_collection_from_index number (sc :: rest) i =
      if i = number then (some sc, i)
      else
        match scene_collection_from_index number sc.scene_collections (i + 1) with
        | (some sc_nested, i1) => (some sc_nested, i1)
        | (none, i1) => scene_collection_from_index number rest i1 := by
  cases sc with
  | mk a n nested =>
    rw [scene_collection_from_index]
    simp only [SceneCollection.scene_collections]


/-- Induction over a forest: the nested collections and the following siblings. -/
theorem forest_induction (P : List SceneCollection → Prop) (hnil : P [])
    (hcons : ∀ (sc : SceneCollection) (rest : List SceneCollection),
      P sc.scene_collections → P rest → P (sc :: rest)) :
    ∀ lb, P lb := by
  intro lb
  induction lb using preorder.induct with
  | case1 => exact hnil
  | case2 a n nested rest ih1 ih2 => exact hcons (SceneCollection.mk a n nested) rest ih1 ih2

theorem forestSize_nil : forestSize [] = 0 := by
  simp [forestSize, preorder]

theorem forestSize_cons (sc : SceneCollection) (rest : List SceneCollection) :
    forestSize (sc :: rest) = 1 + forestSize sc.scene_collections + forestSize rest := by
  simp [forestSize, preorder_cons]
  omega

/-- Below the counter nothing is found and the whole forest is counted. -/
theorem from_index_below (number : Int) :
    ∀ (lb : List SceneCollection) (i : Int), number < i →
      scene_collection_from_index number lb i = (none, i + forestSize lb) := by
  intro lb
  induction lb using forest_induction with
  | hnil => intro i _; simp [from_index_nil, forestSize_nil]
  | hcons sc rest ih1 ih2 =>
    intro i hi
    have hne : ¬ i = number := by omega
    rw [from_index_cons, if_neg hne, ih1 (i + 1) (by omega)]
    simp only
    rw [ih2 _ (by omega), forestSize_cons]
    congr 1
    push_cast
    ring

/-- At or above the counter: the result is the entry of the pre-order listing at the offset, and
the counter stops at the target when it is found and after the forest otherwise. -/
theorem from_index_offset :
    ∀ (lb : List SceneCollection) (i : Int) (k : Nat),
      scene_collection_from_index (i + k) lb i =
        ((preorder lb)[k]?, i + ((min k (forestSize lb) : Nat) : Int)) := by
  intro lb
  induction lb using forest_induction with
  | hnil => intro i k; simp [from_index_nil, forestSize_nil, preorder]
  | hcons sc rest ih1 ih2 =>
    intro i k
    rw [from_index_cons]
    cases k with
    | zero => simp [preorder_cons]
    | succ k =>
      have hne : ¬ i = i + ((k + 1 : Nat) : Int) := by push_cast; omega
      rw [if_neg hne]
      have e1 : i + ((k + 1 : Nat) : Int) = (i + 1) + (k : Int) := by push_cast; ring
      rw [e1, ih1 (i + 1) k]
      by_cases hk : k < forestSize sc.scene_collections
      · have hk2 : k < (preorder sc.scene_collections).length := hk
        rw [List.getElem?_eq_getElem hk2]
        simp only [preorder_cons, List.getElem?_cons_succ]
        rw [List.getElem?_append_left hk2, List.getElem?_eq_getElem hk2, forestSize_cons]
        congr 1
        have : min k (forestSize sc.scene_collections) = k := by omega
        rw [this]
        have : min (k + 1) (1 + forestSize sc.scene_collections + forestSize rest) = k + 1 := by
          omega
        rw [this]
        push_cast
        ring
      · have hk2 : (preorder sc.scene_collections).length ≤ k := by
          simpa [forestSize] using hk
        rw [List.getElem?_eq_none hk2]
        simp only
        have hmin : min k (forestSize sc.scene_collections) = forestSize sc.scene_collections := by
          simp [forestSize]; omega
        rw [hmin]
        have e2 : i + 1 + (k : Int) =
            (i + 1 + (forestSize sc.scene_collections : Int)) +
              ((k - forestSize sc.scene_collections : Nat) : Int) := by
          have : forestSize sc.scene_collections ≤ k := by simpa [forestSize] using hk2
          push_cast [this]
          ring
        rw [e2, ih2]
        simp only [preorder_cons, List.getElem?_cons_succ]
        rw [List.getElem?_append_right hk2, forestSize_cons]
        congr 1
        have hle : forestSize sc.scene_collections ≤ k := by simpa [forestSize] using hk2
        have : ((min (k - forestSize sc.scene_collections) (forestSize rest) : Nat) : Int)
            = ((min (k + 1) (1 + forestSize sc.scene_collections + forestSize rest) : Nat) : Int)
              - 1 - (forestSize sc.scene_collections : Int) := by
          omega
        rw [this]
        ring


/-- The counter only moves forward, by at most the size of the forest: a run that starts with
`i0 + size` representable as a C `int` never overflows the counter. -/
theorem from_index_counter_bounds (lb : List SceneCollection) (number i0 : Int) :
    i0 ≤ (scene_collection_from_index number lb i0).2 ∧
      (scene_collection_from_index number lb i0).2 ≤ i0 + forestSize lb := by
  by_cases h : number < i0
  · rw [from_index_below number lb i0 h]
    simp only
    omega
  · have e : number = i0 + (((number - i0).toNat : Nat) : Int) := by omega
    have h3 := from_index_offset lb i0 (number - i0).toNat
    rw [← e] at h3
    rw [h3]
    simp only
    omega

/-- C7: started with counter `i0`, `scene_collection_from_index` returns the collection at
position `number - i0` of the depth-first pre-order listing of the forest when
`i0 <= number < i0 + size`, and otherwise returns `NULL` with the counter advanced by exactly the
size of the forest. -/
theorem scene_collection_from_index_preorder (lb : List SceneCollection) (number i0 : Int) :
    (i0 ≤ number → number < i0 + forestSize lb →
      ∃ sc, (preorder lb)[(number - i0).toNat]? = some sc ∧
        (scene_collection_from_index number lb i0).1 = some sc) ∧
    (¬ (i0 ≤ number ∧ number < i0 + forestSize lb) →
      scene_collection_from_index number lb i0 = (none, i0 + forestSize lb)) := by
  constructor
  · intro h1 h2
    have hk : (number - i0).toNat < (preorder lb).length := by
      have : (number - i0).toNat < forestSize lb := by omega
      exact this
    refine ⟨(preorder lb)[(number - i0).toNat], List.getElem?_eq_getElem hk, ?_⟩
    have e : number = i0 + (((number - i0).toNat : Nat) : Int) := by omega
    have h := from_index_offset lb i0 (number - i0).toNat
    rw [← e] at h
    rw [h, List.getElem?_eq_getElem hk]
  · intro h
    by_cases h1 : i0 ≤ number
    · have h2 : i0 + forestSize lb ≤ number := by
        by_contra hc
        exact h ⟨h1, by omega⟩
      have e : number = i0 + (((number - i0).toNat : Nat) : Int) := by omega
      have hk : (preorder lb).length ≤ (number - i0).toNat := by
        have : forestSize lb ≤ (number - i0).toNat := by omega
        exact this
      have h3 := from_index_offset lb i0 (number - i0).toNat
      rw [← e] at h3
      rw [h3, List.getElem?_eq_none hk]
      have : min (number - i0).toNat (forestSize lb) = forestSize lb := by
        have : forestSize lb ≤ (number - i0).toNat := hk
        omega
      rw [this]
    · exact from_index_below number lb i0 (by omega)

/-- Witness for C7 on the forest `[A -> [B], C]` with the counter started at 1: target 2 is `B`,
target 7 is past the forest. -/
theorem scene_collection_from_index_preorder_witness :
    (∃ sc, (preorder exampleMaster.scene_collections)[((2 : Int) - 1).toNat]? = some sc ∧
      (scene_collection_from_index 2 exampleMaster.scene_collections 1).1 = some sc) ∧
    scene_collection_from_index 7 exampleMaster.scene_collections 1 =
      (none, (1 : Int) + forestSize exampleMaster.scene_collections) :=
  ⟨(scene_collection_from_index_preorder exampleMaster.scene_collections 2 1).1 (by decide)
      (by simp [forestSize, preorder, exampleMaster, exampleLeaf,
        SceneCollection.scene_collections]),
   (scene_collection_from_index_preorder exampleMaster.scene_collections 7 1).2
      (by simp [forestSize, preorder, exampleMaster, exampleLeaf,
        SceneCollection.scene_collections])⟩

theorem enum_items_from_append (icon : Int) (d : Option String) :
    ∀ (l1 l2 : List SceneCollection) (v : Int),
      enum_items_from icon d v (l1 ++ l2) =
        enum_items_from icon d v l1 ++ enum_items_from icon d (v + l1.length) l2 := by
  intro l1
  induction l1 with
  | nil => intro l2 v; simp [enum_items_from]
  | cons c cs ih =>
    intro l2 v
    have e : v + ((c :: cs).length : Int) = v + 1 + (cs.length : Int) := by
      simp only [List.length_cons]; push_cast; ring
    rw [e, List.cons_append, enum_items_from, enum_items_from, ih, List.cons_append]

theorem enum_items_from_length (icon : Int) (d : Option String) :
    ∀ (l : List SceneCollection) (v : Int), (enum_items_from icon d v l).length = l.length := by
  intro l
  induction l with
  | nil => intro v; simp [enum_items_from]
  | cons c cs ih => intro v; simp [enum_items_from, ih]

theorem enum_items_from_getElem? (icon : Int) (d : Option String) :
    ∀ (l : List SceneCollection) (v : Int) (k : Nat),
      (enum_items_from icon d v l)[k]? = (l[k]?).map (enum_item icon d (v + k)) := by
  intro l
  induction l with
  | nil => intro v k; simp [enum_items_from]
  | cons c cs ih =>
    intro v k
    cases k with
    | zero => simp [enum_items_from]
    | succ k =>
      have e : v + ((k + 1 : Nat) : Int) = v + 1 + (k : Int) := by push_cast; ring
      rw [e, enum_items_from, List.getElem?_cons_succ, List.getElem?_cons_succ, ih]

theorem enum_items_from_values (icon : Int) (d : Option String) :
    ∀ (l : List SceneCollection) (v : Int),
      (enum_items_from icon d v l).map EnumPropertyItem.value =
        (List.range l.length).map (fun (k : Nat) => v + (k : Int)) := by
  intro l
  induction l with
  | nil => intro v; simp [enum_items_from]
  | cons c cs ih =>
    intro v
    rw [enum_items_from, List.map_cons, ih, List.length_cons, List.range_succ_eq_map,
      List.map_cons, List.map_map]
    simp only [enum_item, Nat.cast_zero, add_zero, List.cons.injEq, true_and]
    apply List.map_congr_left
    intro k _
    simp only [Function.comp]
    push_cast
    ring

/-- What the loop of the enum builder does on a forest: one item per collection of the pre-order
listing, numbered consecutively from the current value. -/
theorem itemf_recursive_loop_spec (icon : Int) :
    ∀ (lb : List SceneCollection) (st : ItemfState),
      (collection_scene_collection_itemf_recursive_loop icon st lb).item =
          st.item ++ enum_items_from icon st.tmp.description st.value (preorder lb) ∧
      (collection_scene_collection_itemf_recursive_loop icon st lb).value =
          st.value + forestSize lb ∧
      (collection_scene_collection_itemf_recursive_loop icon st lb).totitem =
          st.totitem + forestSize lb ∧
      (collection_scene_collection_itemf_recursive_loop icon st lb).tmp.description =
          st.tmp.description := by
  intro lb
  induction lb using forest_induction with
  | hnil =>
    intro st
    simp [collection_scene_collection_itemf_recursive_loop, preorder, enum_items_from,
      forestSize_nil]
  | hcons sc rest ih1 ih2 =>
    intro st
    cases sc with
    | mk a n nested =>
      rw [collection_scene_collection_itemf_recursive_loop,
        collection_scene_collection_itemf_recursive]
      simp only [SceneCollection.scene_collections] at ih1
      simp only [RNA_enum_item_add]
      obtain ⟨h1, h2, h3, h4⟩ := ih1
        ⟨⟨st.value, some n, icon, some n, st.tmp.description⟩,
          st.item ++ [⟨st.value, some n, icon, some n, st.tmp.description⟩],
          st.totitem + 1, st.value + 1⟩
      obtain ⟨g1, g2, g3, g4⟩ :=
        ih2 (collection_scene_collection_itemf_recursive_loop icon
          ⟨⟨st.value, some n, icon, some n, st.tmp.description⟩,
            st.item ++ [⟨st.value, some n, icon, some n, st.tmp.description⟩],
            st.totitem + 1, st.value + 1⟩ nested)
      rw [g1, g2, g3, g4, h1, h2, h3, h4]
      simp only [preorder_cons, SceneCollection.scene_collections, enum_items_from,
        enum_items_from_append, forestSize_cons, enum_item, SceneCollection.name]
      refine ⟨?_, ?_, ?_, trivial⟩
      · simp only [List.append_assoc, List.singleton_append, forestSize, List.cons_append,
          List.nil_append]
      · push_cast; ring
      · push_cast; ring

/-- The item array built by `collection_scene_collection_itemf`: one item per collection of the
pre-order listing of the hierarchy, numbered from 0, then the terminating item. -/
theorem itemf_items (icon : Int) (C : bContext) :
    (collection_scene_collection_itemf icon C).1 =
      enum_items_from icon (some "") 0 (preorder [BKE_collection_master (CTX_data_scene C)]) ++
        [EnumPropertyItem.mk 0 none 0 none none] := by
  have h := (itemf_recursive_loop_spec icon [BKE_collection_master (CTX_data_scene C)]
    ⟨⟨0, some "", 0, some "", some ""⟩, [], 0, 0⟩).1
  rw [collection_scene_collection_itemf_recursive_loop,
    collection_scene_collection_itemf_recursive_loop] at h
  simp only [collection_scene_collection_itemf, RNA_enum_item_end]
  rw [h]
  simp

/-- The lookup of `collection_link_exec` for a positive value. -/
theorem link_lookup_succ (master : SceneCollection) (k : Nat) :
    (scene_collection_from_index ((k + 1 : Nat) : Int) master.scene_collections 1).1 =
      (preorder [master])[k + 1]? := by
  have h := from_index_offset master.scene_collections 1 k
  have e : ((k + 1 : Nat) : Int) = 1 + (k : Int) := by push_cast; ring
  rw [e, h, preorder_cons, List.getElem?_cons_succ]
  simp [preorder]

/-- C8: round trip between the enum builder and the link lookup. For the collection `c` at
position `k` of the pre-order listing of the hierarchy under the master collection, the builder
adds, at position `k`, the item of `c` with value `k`; when the operator property holds that
value, `collection_link_exec` links exactly `c` (and its assertion holds); the values of the
items are `0 .. n-1`, each once, followed by the terminating item. -/
theorem collection_link_enum_roundtrip (ICON_COLLAPSEMENU : Int) (C : bContext) (op : wmOperator)
    (k : Nat) (c : SceneCollection)
    (hc : (preorder [BKE_collection_master (CTX_data_scene C)])[k]? = some c)
    (hv : RNA_enum_get op.ptr "scene_collection" = (k : Int)) :
    ((collection_scene_collection_itemf ICON_COLLAPSEMENU C).1)[k]? =
        some (enum_item ICON_COLLAPSEMENU (some "") k c) ∧
    collection_link_exec C op =
      (OperatorReturn.OPERATOR_FINISHED,
        (if k = 0 then [] else [Call.BLI_assert true]) ++
        [Call.BKE_collection_link (CTX_data_scene_layer C).addr (some c),
         Call.DEG_relations_tag_update (CTX_data_main C).addr,
         Call.DEG_id_tag_update (CTX_data_scene C).addr 0,
         Call.WM_main_add_notifier [NotifierFlag.NC_SCENE, NotifierFlag.ND_LAYER] none]) ∧
    (((collection_scene_collection_itemf ICON_COLLAPSEMENU C).1).take
        (forestSize [BKE_collection_master (CTX_data_scene C)])).map EnumPropertyItem.value =
      (List.range (forestSize [BKE_collection_master (CTX_data_scene C)])).map
        (fun (j : Nat) => (j : Int)) ∧
    ((collection_scene_collection_itemf ICON_COLLAPSEMENU C).1).length =
      forestSize [BKE_collection_master (CTX_data_scene C)] + 1 := by
  have hk : k < (preorder [BKE_collection_master (CTX_data_scene C)]).length := by
    by_contra hcon
    rw [List.getElem?_eq_none (by omega)] at hc
    exact Option.noConfusion hc
  refine ⟨?_, ?_, ?_, ?_⟩
  · rw [itemf_items, List.getElem?_append_left (by rw [enum_items_from_length]; exact hk),
      enum_items_from_getElem?, hc]
    simp
  · simp only [collection_link_exec, hv]
    cases k with
    | zero =>
      rw [preorder_cons] at hc
      simp only [List.getElem?_cons_zero, Option.some.injEq] at hc
      simp [hc]
    | succ k =>
      have hne : ¬ (((k + 1 : Nat) : Int) = 0) := by push_cast; omega
      rw [if_neg hne]
      simp only [link_lookup_succ, hc]
      simp
  · rw [itemf_items, List.take_left' (by rw [enum_items_from_length]; rfl),
      enum_items_from_values]
    simp [forestSize]
  · rw [itemf_items]
    simp [enum_items_from_length, forestSize]

/-- Witness for C8 on the hierarchy `Master -> [A -> [B], C]`: position 2 is `B`. -/
theorem collection_link_enum_roundtrip_witness :
    ((collection_scene_collection_itemf 7 (exampleContext none none)).1)[2]? =
        some (enum_item 7 (some "") 2 (exampleLeaf 102 "B")) ∧
    collection_link_exec (exampleContext none none) (exampleOperator 2) =
      (OperatorReturn.OPERATOR_FINISHED,
        [Call.BLI_assert true,
         Call.BKE_collection_link 20 (some (exampleLeaf 102 "B")),
         Call.DEG_relations_tag_update 1,
         Call.DEG_id_tag_update 10 0,
         Call.WM_main_add_notifier [NotifierFlag.NC_SCENE, NotifierFlag.ND_LAYER] none]) := by
  have h := collection_link_enum_roundtrip 7 (exampleContext none none) (exampleOperator 2) 2
    (exampleLeaf 102 "B")
    (by simp [preorder, BKE_collection_master, CTX_data_scene, exampleContext, exampleScene,
      exampleMaster, exampleLeaf])
    (by simp [RNA_enum_get, exampleOperator])
  exact ⟨h.1, h.2.1⟩

/-- C1: when the scene collection that `outliner_scene_collection_from_tree_element` resolves for
the element (directly or through a layer collection) is the master collection of the scene,
`collection_delete_cb` makes no call (no `BKE_collection_remove`) and returns
`TRAVERSE_CONTINUE`. -/
theorem collection_delete_cb_master (te : TreeElement) (data : CollectionDeleteData)
    (trace : List Call) (sc : SceneCollection)
    (hsc : outliner_scene_collection_from_tree_element te = some sc)
    (hmaster : sc.addr = (BKE_collection_master data.scene).addr) :
    collection_delete_cb te data trace = (TreeTraversalAction.TRAVERSE_CONTINUE, trace) := by
  simp [collection_delete_cb, hsc, hmaster]

/-- Witness for C1: an element showing the master collection through a layer collection. -/
theorem collection_delete_cb_master_witness :
    collection_delete_cb
      (TreeElement.mk "Master" 0 0
        (TreeElementData.TSE_LAYER_COLLECTION (LayerCollection.mk 200 (some exampleMaster) 0 []))
        [])
      { scene := exampleScene, soops := { addr := 40, tree := [] } } [] =
    (TreeTraversalAction.TRAVERSE_CONTINUE, []) :=
  collection_delete_cb_master _ _ [] exampleMaster rfl rfl

/-- Counterexample to C2 as stated: an element that is not a collection at all resolves to
`NULL`, so its payload is not the master collection, yet `collection_delete_cb` makes no call
and answers `TRAVERSE_SKIP_CHILDS` instead of `TRAVERSE_CONTINUE`. -/
theorem collection_delete_cb_not_collection :
    (¬ ∃ sc, outliner_scene_collection_from_tree_element
        (TreeElement.mk "Cube" 0 0 (TreeElementData.other 0) []) = some sc ∧
        sc.addr = (BKE_collection_master exampleScene).addr) ∧
    collection_delete_cb (TreeElement.mk "Cube" 0 0 (TreeElementData.other 0) [])
        { scene := exampleScene, soops := { addr := 40, tree := [] } } [] =
      (TreeTraversalAction.TRAVERSE_SKIP_CHILDS, []) ∧
    (collection_delete_cb (TreeElement.mk "Cube" 0 0 (TreeElementData.other 0) [])
        { scene := exampleScene, soops := { addr := 40, tree := [] } } []).1 ≠
      TreeTraversalAction.TRAVERSE_CONTINUE := by
  refine ⟨?_, rfl, ?_⟩
  · rintro ⟨sc, h, _⟩
    exact Option.noConfusion h
  · intro h
    exact TreeTraversalAction.noConfusion h

/-- C2 (amended): for every scene, tree element and calls made so far: when the element
resolves to a scene collection (the result of `outliner_scene_collection_from_tree_element` is
not `NULL`) that is not the master collection of the scene, `collection_delete_cb` makes exactly
one call, `BKE_collection_remove` on the scene for that collection, and returns
`TRAVERSE_CONTINUE`; when the element resolves to `NULL`, it makes no call and returns
`TRAVERSE_SKIP_CHILDS`. -/
theorem collection_delete_cb_remove (te : TreeElement) (data : CollectionDeleteData)
    (trace : List Call) :
    (∀ sc, outliner_scene_collection_from_tree_element te = some sc →
      sc.addr ≠ (BKE_collection_master data.scene).addr →
      collection_delete_cb te data trace =
        (TreeTraversalAction.TRAVERSE_CONTINUE,
          trace ++ [Call.BKE_collection_remove data.scene.addr sc])) ∧
    (outliner_scene_collection_from_tree_element te = none →
      collection_delete_cb te data trace =
        (TreeTraversalAction.TRAVERSE_SKIP_CHILDS, trace)) := by
  constructor
  · intro sc hsc hmaster
    simp [collection_delete_cb, hsc, hmaster]
  · intro hnone
    simp [collection_delete_cb, hnone]

/-- Witness for C2 (amended): the element of collection `C` of the example scene is removed,
after an earlier call; an element of another type and a scene collection element without
collection behind it are skipped with the calls unchanged. -/
theorem collection_delete_cb_remove_witness :
    collection_delete_cb
      (TreeElement.mk "C" 0 0 (TreeElementData.TSE_SCENE_COLLECTION (some (exampleLeaf 103 "C")))
        [])
      { scene := exampleScene, soops := { addr := 40, tree := [] } }
      [Call.DEG_relations_tag_update 1] =
    (TreeTraversalAction.TRAVERSE_CONTINUE,
      [Call.DEG_relations_tag_update 1] ++
        [Call.BKE_collection_remove exampleScene.addr (exampleLeaf 103 "C")]) ∧
    collection_delete_cb (TreeElement.mk "Lamp" 0 0 (TreeElementData.other 5) [])
      { scene := exampleScene, soops := { addr := 40, tree := [] } }
      [Call.DEG_relations_tag_update 1] =
    (TreeTraversalAction.TRAVERSE_SKIP_CHILDS, [Call.DEG_relations_tag_update 1]) ∧
    collection_delete_cb
      (TreeElement.mk "Empty" 0 0 (TreeElementData.TSE_SCENE_COLLECTION none) [])
      { scene := exampleScene, soops := { addr := 40, tree := [] } } [] =
    (TreeTraversalAction.TRAVERSE_SKIP_CHILDS, []) :=
  ⟨(collection_delete_cb_remove _ _ _).1 (exampleLeaf 103 "C") rfl (by decide),
   (collection_delete_cb_remove _ _ _).2 rfl,
   (collection_delete_cb_remove _ _ _).2 rfl⟩

/-- C6: for every input, `stubs_invoke` and `collection_override_new_invoke` make exactly one
call, an `RPT_ERROR` report whose message ends in "not implemented yet", and return
`OPERATOR_CANCELLED`; in particular no dependency-graph tag, no notifier and no call that
changes the scene. -/
theorem stubs_report_not_implemented (C : bContext) (op : wmOperator) (event : wmEvent) :
    stubs_invoke C op event =
      (OperatorReturn.OPERATOR_CANCELLED,
        [Call.BKE_report op.reports ReportType.RPT_ERROR
          ("Operator " ++ "not implemented yet")]) ∧
    collection_override_new_invoke C op event =
      (OperatorReturn.OPERATOR_CANCELLED,
        [Call.BKE_report op.reports ReportType.RPT_ERROR
          ("OUTLINER_OT_collections_override_new " ++ "not implemented yet")]) ∧
    ((stubs_invoke C op event).2.length = 1 ∧
      (stubs_invoke C op event).2.all Call.isReport = true ∧
      (stubs_invoke C op event).2.any Call.isDepsgraphTag = false ∧
      (stubs_invoke C op event).2.any Call.isNotifier = false) ∧
    ((collection_override_new_invoke C op event).2.length = 1 ∧
      (collection_override_new_invoke C op event).2.all Call.isReport = true ∧
      (collection_override_new_invoke C op event).2.any Call.isDepsgraphTag = false ∧
      (collection_override_new_invoke C op event).2.any Call.isNotifier = false) := by
  refine ⟨rfl, rfl, ?_, ?_⟩
  · simp [stubs_invoke, Call.isReport, Call.isDepsgraphTag, Call.isNotifier]
  · simp [collection_override_new_invoke, Call.isReport, Call.isDepsgraphTag, Call.isNotifier]

/-- Counterexample to C3 as stated: `collection_select_exec` returns `OPERATOR_FINISHED` after a
single notifier call, without any dependency-graph tag. -/
theorem collection_select_exec_no_tag :
    collection_select_exec (exampleContext none none) (exampleOperator 3) =
      (OperatorReturn.OPERATOR_FINISHED,
        { addr := 20, active_collection := 3, layer_collections := [exampleTopLayer] },
        [Call.WM_main_add_notifier [NotifierFlag.NC_SCENE, NotifierFlag.ND_LAYER] none]) ∧
    (collection_select_exec (exampleContext none none) (exampleOperator 3)).2.2.any
      Call.isDepsgraphTag = false := by
  constructor <;> rfl

/-- C3 (amended): every exec handler of this file that returns `OPERATOR_FINISHED` has emitted
at least one UI notifier by then; `collection_link_exec`, `collection_unlink_exec`,
`collection_new_exec`, `collection_delete_exec` and `collection_toggle_exec` have also tagged
the dependency graph for update; `collection_select_exec`, for every input, returns
`OPERATOR_FINISHED` with the active collection index stored in the scene layer and exactly one
call made, `WM_main_add_notifier(NC_SCENE | ND_LAYER, NULL)`: no dependency-graph tag and no
other call. -/
theorem exec_finished_tagged_and_notified (COLLECTION_TYPE_GROUP : Int)
    (BKE_collection_add : Nat → Option SceneCollection → Int → Option String →
      Option SceneCollection)
    (TSE_SELECTED COLLECTION_DISABLED : Nat) (C : bContext) (op : wmOperator) :
    ((collection_link_exec C op).1 = OperatorReturn.OPERATOR_FINISHED ∧
      (collection_link_exec C op).2.any Call.isDepsgraphTag = true ∧
      (collection_link_exec C op).2.any Call.isNotifier = true) ∧
    (∀ t, collection_unlink_exec C op = (OperatorReturn.OPERATOR_FINISHED, t) →
      t.any Call.isDepsgraphTag = true ∧ t.any Call.isNotifier = true) ∧
    (∀ t, collection_new_exec COLLECTION_TYPE_GROUP BKE_collection_add C op =
        some (OperatorReturn.OPERATOR_FINISHED, t) →
      t.any Call.isDepsgraphTag = true ∧ t.any Call.isNotifier = true) ∧
    (∀ t, collection_delete_exec TSE_SELECTED C op =
        some (OperatorReturn.OPERATOR_FINISHED, t) →
      t.any Call.isDepsgraphTag = true ∧ t.any Call.isNotifier = true) ∧
    (∀ t, collection_toggle_exec COLLECTION_DISABLED C op =
        some (OperatorReturn.OPERATOR_FINISHED, t) →
      t.any Call.isDepsgraphTag = true ∧ t.any Call.isNotifier = true) ∧
    (collection_select_exec C op =
        (OperatorReturn.OPERATOR_FINISHED,
          { CTX_data_scene_layer C with
            active_collection := RNA_int_get op.ptr "collection_index" },
          [Call.WM_main_add_notifier [NotifierFlag.NC_SCENE, NotifierFlag.ND_LAYER] none]) ∧
      (collection_select_exec C op).1 = OperatorReturn.OPERATOR_FINISHED ∧
      (collection_select_exec C op).2.1 =
        { CTX_data_scene_layer C with
          active_collection := RNA_int_get op.ptr "collection_index" } ∧
      (collection_select_exec C op).2.2.length = 1 ∧
      (collection_select_exec C op).2.2.any Call.isNotifier = true ∧
      (collection_select_exec C op).2.2.any Call.isDepsgraphTag = false) := by
  refine ⟨?_, ?_, ?_, ?_, ?_, ?_⟩
  · simp [collection_link_exec, Call.isDepsgraphTag, Call.isNotifier]
  · intro t h
    simp only [collection_unlink_exec] at h
    split at h
    · simp at h
    · simp only [Prod.mk.injEq, true_and] at h
      subst h
      simp [Call.isDepsgraphTag, Call.isNotifier]
  · intro t h
    simp only [collection_new_exec] at h
    split at h
    · split at h
      · simp at h
      · simp only [Option.some.injEq, Prod.mk.injEq, true_and] at h
        subst h
        simp [Call.isDepsgraphTag, Call.isNotifier]
    · simp only [Option.some.injEq, Prod.mk.injEq, true_and] at h
      subst h
      simp [Call.isDepsgraphTag, Call.isNotifier]
  · intro t h
    simp only [collection_delete_exec] at h
    split at h
    · simp at h
    · simp only [Option.some.injEq, Prod.mk.injEq, true_and] at h
      subst h
      simp [Call.isDepsgraphTag, Call.isNotifier]
  · intro t h
    simp only [collection_toggle_exec] at h
    split at h
    · simp at h
    · split at h
      · split at h
        · simp only [Option.some.injEq, Prod.mk.injEq, true_and] at h
          subst h
          simp [Call.isDepsgraphTag, Call.isNotifier]
        · split at h <;> simp at h
      · split at h
        · simp only [Option.some.injEq, Prod.mk.injEq, true_and] at h
          subst h
          simp [Call.isDepsgraphTag, Call.isNotifier]
        · split at h <;> simp at h
  · simp [collection_select_exec, Call.isDepsgraphTag, Call.isNotifier]

/-- Witness for C3 (amended): unlinking the active top-level layer collection of the example
context finishes with the dependency graph tagged and a notifier emitted. -/
theorem exec_finished_tagged_and_notified_witness :
    collection_unlink_exec (exampleContext (some exampleTopLayer) none) (exampleOperator 0) =
      (OperatorReturn.OPERATOR_FINISHED,
        [Call.BKE_collection_unlink 20 exampleTopLayer,
         Call.DEG_relations_tag_update 1,
         Call.DEG_id_tag_update 10 0,
         Call.WM_main_add_notifier [NotifierFlag.NC_SCENE, NotifierFlag.ND_LAYER] none]) ∧
    (List.any [Call.BKE_collection_unlink 20 exampleTopLayer,
         Call.DEG_relations_tag_update 1,
         Call.DEG_id_tag_update 10 0,
         Call.WM_main_add_notifier [NotifierFlag.NC_SCENE, NotifierFlag.ND_LAYER] none]
        Call.isDepsgraphTag = true ∧
     List.any [Call.BKE_collection_unlink 20 exampleTopLayer,
         Call.DEG_relations_tag_update 1,
         Call.DEG_id_tag_update 10 0,
         Call.WM_main_add_notifier [NotifierFlag.NC_SCENE, NotifierFlag.ND_LAYER] none]
        Call.isNotifier = true) :=
  ⟨rfl, (exec_finished_tagged_and_notified 0 (fun _ _ _ _ => none) 2 4
    (exampleContext (some exampleTopLayer) none) (exampleOperator 0)).2.1 _ rfl⟩

theorem layer_preorder_cons (lc : LayerCollection) (rest : List LayerCollection) :
    layer_preorder (lc :: rest) =
      lc :: (layer_preorder lc.layer_collections ++ layer_preorder rest) := by
  cases lc with
  | mk a sc f nested => simp [layer_preorder, LayerCollection.layer_collections]

/-- Every top-level element of a forest of layer collections is in its listing, and so is
everything nested under a top-level element. -/
theorem layer_preorder_mem (top : List LayerCollection) :
    (∀ l ∈ top, l ∈ layer_preorder top) ∧
    (∀ l ∈ top, ∀ x ∈ layer_preorder l.layer_collections, x ∈ layer_preorder top) := by
  induction top with
  | nil => simp
  | cons t rest ih =>
    rw [layer_preorder_cons]
    constructor
    · intro l hl
      rcases List.mem_cons.mp hl with h | h
      · simp [h]
      · simp [ih.1 l h]
    · intro l hl x hx
      rcases List.mem_cons.mp hl with h | h
      · subst h; simp [hx]
      · simp [ih.2 l h x hx]

/-- In a forest whose nodes have pairwise distinct addresses, a node nested under a top-level
element has the address of no top-level element. -/
theorem layer_nested_addr_ne (top : List LayerCollection)
    (hnodup : ((layer_preorder top).map LayerCollection.addr).Nodup) :
    ∀ parent ∈ top, ∀ x ∈ layer_preorder parent.layer_collections,
      ∀ l ∈ top, l.addr ≠ x.addr := by
  induction top with
  | nil => simp
  | cons t rest ih =>
    rw [layer_preorder_cons, List.map_cons, List.map_append, List.nodup_cons,
      List.nodup_append] at hnodup
    obtain ⟨hnot, _, hrest, hdisj⟩ := hnodup
    intro parent hparent x hx l hl
    rcases List.mem_cons.mp hparent with hp | hp <;> rcases List.mem_cons.mp hl with h | h
    · subst hp; subst h
      intro he
      exact hnot (List.mem_append_left _ (he ▸ List.mem_map_of_mem _ hx))
    · subst hp
      intro he
      exact hdisj (List.mem_map_of_mem _ hx)
        (he ▸ List.mem_map_of_mem _ ((layer_preorder_mem rest).1 l h))
    · subst h
      intro he
      exact hnot (List.mem_append_right _
        (he ▸ List.mem_map_of_mem _ ((layer_preorder_mem rest).2 parent hp x hx)))
    · exact ih hrest parent hp x hx l h

/-- The lookup finds a position exactly when the list has a link with this address. -/
theorem BLI_findindex_ne_neg_one (listbase : List LayerCollection) (vlink : LayerCollection) :
    BLI_findindex listbase vlink ≠ -1 ↔ ∃ l ∈ listbase, l.addr = vlink.addr := by
  unfold BLI_findindex
  cases h : listbase.findIdx? (fun link => link.addr == vlink.addr) with
  | none =>
    rw [List.findIdx?_eq_none_iff] at h
    simp only [ne_eq, not_true_eq_false, false_iff, not_exists, not_and]
    intro l hl he
    have := h l hl
    simp [he] at this
  | some n =>
    have hs : (listbase.findIdx? (fun link => link.addr == vlink.addr)).isSome = true := by
      rw [h]; rfl
    rw [List.findIdx?_isSome, List.any_eq_true] at hs
    obtain ⟨l, hl, he⟩ := hs
    constructor
    · intro _
      exact ⟨l, hl, by simpa using he⟩
    · intro _
      simp only [ne_eq]
      omega

/-- C5: `collection_unlink_poll` returns 1 exactly when there is an active layer collection and
it is an element of the top-level `layer_collections` of the active scene layer; otherwise it
returns 0, in particular without active collection and when the active collection is only nested
inside a top-level layer collection (the nodes of the layer having distinct addresses). -/
theorem collection_unlink_poll_iff (C : bContext) :
    (collection_unlink_poll C = 1 ↔
      ∃ lc, outliner_collection_active C = some lc ∧
        ∃ l ∈ (CTX_data_scene_layer C).layer_collections, l.addr = lc.addr) ∧
    (collection_unlink_poll C ≠ 1 → collection_unlink_poll C = 0) ∧
    (outliner_collection_active C = none → collection_unlink_poll C = 0) ∧
    (∀ lc parent, outliner_collection_active C = some lc →
      ((layer_preorder (CTX_data_scene_layer C).layer_collections).map
        LayerCollection.addr).Nodup →
      parent ∈ (CTX_data_scene_layer C).layer_collections →
      lc ∈ layer_preorder parent.layer_collections →
      collection_unlink_poll C = 0) := by
  have key : collection_unlink_poll C = 1 ↔
      ∃ lc, outliner_collection_active C = some lc ∧
        ∃ l ∈ (CTX_data_scene_layer C).layer_collections, l.addr = lc.addr := by
    unfold collection_unlink_poll
    cases h : outliner_collection_active C with
    | none => simp
    | some lc =>
      simp only [Option.some.injEq, exists_eq_left']
      rw [← BLI_findindex_ne_neg_one]
      by_cases hf : BLI_findindex (CTX_data_scene_layer C).layer_collections lc = -1
      · simp [hf]
      · simp [hf]
  have zero_or : collection_unlink_poll C ≠ 1 → collection_unlink_poll C = 0 := by
    unfold collection_unlink_poll
    cases outliner_collection_active C with
    | none => simp
    | some lc =>
      by_cases hf : BLI_findindex (CTX_data_scene_layer C).layer_collections lc = -1
      · simp [hf]
      · simp [hf]
  refine ⟨key, zero_or, ?_, ?_⟩
  · intro h
    simp [collection_unlink_poll, h]
  · intro lc parent hactive hnodup hparent hnested
    apply zero_or
    intro hone
    obtain ⟨lc2, h2, l, hl, he⟩ := key.mp hone
    rw [hactive] at h2
    cases h2
    exact layer_nested_addr_ne _ hnodup parent hparent lc hnested l hl he

/-- Witness for C5 on the example layer: the top-level collection can be unlinked, the one
nested under it cannot. -/
theorem collection_unlink_poll_iff_witness :
    collection_unlink_poll (exampleContext (some exampleTopLayer) none) = 1 ∧
    collection_unlink_poll (exampleContext none none) = 0 ∧
    collection_unlink_poll (exampleContext (some exampleNestedLayer) none) = 0 :=
  ⟨(collection_unlink_poll_iff (exampleContext (some exampleTopLayer) none)).1.2
      ⟨exampleTopLayer, rfl, exampleTopLayer, List.mem_cons_self _ _, rfl⟩,
   (collection_unlink_poll_iff (exampleContext none none)).2.2.1 rfl,
   (collection_unlink_poll_iff (exampleContext (some exampleNestedLayer) none)).2.2.2
      exampleNestedLayer exampleTopLayer rfl
      (by simp [layer_preorder, CTX_data_scene_layer, exampleContext, exampleLayer,
        exampleTopLayer, exampleNestedLayer, LayerCollection.addr])
      (List.mem_cons_self _ _)
      (by simp [layer_preorder, exampleTopLayer, exampleNestedLayer,
        LayerCollection.layer_collections])⟩

/-- Induction over a forest of tree elements: the subtree and the following siblings. -/
theorem tree_induction (P : List TreeElement → Prop) (hnil : P [])
    (hcons : ∀ (te : TreeElement) (rest : List TreeElement),
      P te.subtree → P rest → P (te :: rest)) :
    ∀ tree, P tree := by
  intro tree
  induction tree using tree_preorder.induct with
  | case1 => exact hnil
  | case2 n f tf d subtree rest ih1 ih2 =>
    exact hcons (TreeElement.mk n f tf d subtree) rest ih1 ih2

theorem traverse_nil {σ : Type} (fte ftse : Nat)
    (func : TreeElement → σ → TreeTraversalAction × σ) (s : σ) :
    outliner_tree_traverse fte ftse func [] s = s := by
  simp [outliner_tree_traverse]

theorem traverse_cons {σ : Type} (fte ftse : Nat)
    (func : TreeElement → σ → TreeTraversalAction × σ) (te : TreeElement)
    (rest : List TreeElement) (s : σ) :
    outliner_tree_traverse fte ftse func (te :: rest) s =
      if outliner_tree_traverse_match fte ftse te then
        match func te s with
        | (TreeTraversalAction.TRAVERSE_SKIP_CHILDS, s1) =>
          outliner_tree_traverse fte ftse func rest s1
        | (TreeTraversalAction.TRAVERSE_CONTINUE, s1) =>
          outliner_tree_traverse fte ftse func rest
            (outliner_tree_traverse fte ftse func te.subtree s1)
      else
        outliner_tree_traverse fte ftse func rest
          (outliner_tree_traverse fte ftse func te.subtree s) := by
  cases te with
  | mk n f tf d subtree =>
    rw [outliner_tree_traverse]
    simp only [TreeElement.subtree]

/-- Traversing a list of siblings is traversing its first part, then the rest. -/
theorem traverse_append {σ : Type} (fte ftse : Nat)
    (func : TreeElement → σ → TreeTraversalAction × σ) :
    ∀ (l1 l2 : List TreeElement) (s : σ),
      outliner_tree_traverse fte ftse func (l1 ++ l2) s =
        outliner_tree_traverse fte ftse func l2 (outliner_tree_traverse fte ftse func l1 s) := by
  intro l1
  induction l1 with
  | nil => intro l2 s; simp [traverse_nil]
  | cons te rest ih =>
    intro l2 s
    rw [List.cons_append, traverse_cons, traverse_cons]
    split
    · split <;> simp only [ih]
    · simp only [ih]

/-- The action returned by `collection_delete_cb` does not depend on the calls made so far. -/
theorem collection_delete_cb_action (te : TreeElement) (data : CollectionDeleteData)
    (t1 t2 : List Call) :
    (collection_delete_cb te data t1).1 = (collection_delete_cb te data t2).1 := by
  unfold collection_delete_cb
  cases outliner_scene_collection_from_tree_element te with
  | none => rfl
  | some sc =>
    simp only
    split <;> rfl

/-- With a visitor whose action does not depend on the context, the log of the traversal is the
log so far followed by the visit sequence of the forest. -/
theorem logged_traverse_snd {σ : Type} (fte ftse : Nat)
    (func : TreeElement → σ → TreeTraversalAction × σ)
    (hfunc : ∀ te s1 s2, (func te s1).1 = (func te s2).1) (s0 : σ) :
    ∀ (tree : List TreeElement) (p : σ × List TreeElement),
      (outliner_tree_traverse fte ftse (visit_logged func) tree p).2 =
        p.2 ++ (outliner_tree_traverse fte ftse (visit_logged func) tree (s0, [])).2 := by
  intro tree
  induction tree using tree_induction with
  | hnil => intro p; simp [traverse_nil]
  | hcons te rest ih1 ih2 =>
    intro p
    rw [traverse_cons, traverse_cons]
    by_cases hm : outliner_tree_traverse_match fte ftse te = true
    · rw [if_pos hm, if_pos hm]
      simp only [visit_logged]
      rw [hfunc te p.1 s0]
      cases (func te s0).1 with
      | TRAVERSE_CONTINUE =>
        simp only [List.nil_append]
        rw [ih2 (outliner_tree_traverse fte ftse (visit_logged func) te.subtree
              ((func te p.1).2, p.2 ++ [te])),
          ih2 (outliner_tree_traverse fte ftse (visit_logged func) te.subtree
              ((func te s0).2, [te])),
          ih1 ((func te p.1).2, p.2 ++ [te]), ih1 ((func te s0).2, [te])]
        simp [List.append_assoc]
      | TRAVERSE_SKIP_CHILDS =>
        simp only [List.nil_append]
        rw [ih2 ((func te p.1).2, p.2 ++ [te]), ih2 ((func te s0).2, [te])]
        simp [List.append_assoc]
    · rw [if_neg hm, if_neg hm]
      rw [ih2 (outliner_tree_traverse fte ftse (visit_logged func) te.subtree p),
        ih2 (outliner_tree_traverse fte ftse (visit_logged func) te.subtree (s0, [])),
        ih1 p]
      simp [List.append_assoc]

/-- Recording the visits does not change the traversal: the context computed by the logged
visitor is the context computed by the visitor itself. -/
theorem logged_traverse_fst {σ : Type} (fte ftse : Nat)
    (func : TreeElement → σ → TreeTraversalAction × σ) :
    ∀ (tree : List TreeElement) (p : σ × List TreeElement),
      (outliner_tree_traverse fte ftse (visit_logged func) tree p).1 =
        outliner_tree_traverse fte ftse func tree p.1 := by
  intro tree
  induction tree using tree_induction with
  | hnil => intro p; simp [traverse_nil]
  | hcons te rest ih1 ih2 =>
    intro p
    rw [traverse_cons, traverse_cons]
    by_cases hm : outliner_tree_traverse_match fte ftse te = true
    · rw [if_pos hm, if_pos hm]
      simp only [visit_logged]
      rcases h : func te p.1 with ⟨a, s1⟩
      cases a with
      | TRAVERSE_CONTINUE => simp only; rw [ih2, ih1]
      | TRAVERSE_SKIP_CHILDS => simp only; rw [ih2]
    · rw [if_neg hm, if_neg hm, ih2, ih1]

theorem delete_visits_nil (T : Nat) (data : CollectionDeleteData) :
    collection_delete_visits T data [] = [] := by
  simp [collection_delete_visits, traverse_nil]

/-- The visit sequence of a list of siblings, by the first element. -/
theorem delete_visits_cons (T : Nat) (data : CollectionDeleteData) (te : TreeElement)
    (rest : List TreeElement) :
    collection_delete_visits T data (te :: rest) =
      if outliner_tree_traverse_match 0 T te then
        match (collection_delete_cb te data []).1 with
        | TreeTraversalAction.TRAVERSE_SKIP_CHILDS => te :: collection_delete_visits T data rest
        | TreeTraversalAction.TRAVERSE_CONTINUE =>
          te :: (collection_delete_visits T data te.subtree ++
            collection_delete_visits T data rest)
      else
        collection_delete_visits T data te.subtree ++ collection_delete_visits T data rest := by
  have hind : ∀ te (s1 s2 : List Call),
      ((fun te trace => collection_delete_cb te data trace) te s1).1 =
        ((fun te trace => collection_delete_cb te data trace) te s2).1 :=
    fun te s1 s2 => collection_delete_cb_action te data s1 s2
  have hs := logged_traverse_snd 0 T (fun te trace => collection_delete_cb te data trace)
    hind []
  unfold collection_delete_visits
  rw [traverse_cons]
  by_cases hm : outliner_tree_traverse_match 0 T te = true
  · rw [if_pos hm, if_pos hm]
    simp only [visit_logged]
    cases (collection_delete_cb te data []).1 with
    | TRAVERSE_CONTINUE =>
      simp only
      rw [hs rest, hs te.subtree]
      simp
    | TRAVERSE_SKIP_CHILDS =>
      simp only
      rw [hs rest]
      simp
  · rw [if_neg hm, if_neg hm, hs rest]

theorem delete_visits_append (T : Nat) (data : CollectionDeleteData)
    (l1 l2 : List TreeElement) :
    collection_delete_visits T data (l1 ++ l2) =
      collection_delete_visits T data l1 ++ collection_delete_visits T data l2 := by
  have hind : ∀ te (s1 s2 : List Call),
      ((fun te trace => collection_delete_cb te data trace) te s1).1 =
        ((fun te trace => collection_delete_cb te data trace) te s2).1 :=
    fun te s1 s2 => collection_delete_cb_action te data s1 s2
  unfold collection_delete_visits
  rw [traverse_append, logged_traverse_snd 0 T _ hind [] l2]

theorem traverse_match_self (T : Nat) (name : String) (data : TreeElementData)
    (subtree : List TreeElement) :
    outliner_tree_traverse_match 0 T (exampleElement T name data subtree) = true := by
  simp only [outliner_tree_traverse_match, exampleElement, TreeElement.tselem_flag,
    Nat.and_self]
  by_cases h : T = 0 <;> simp [h]

/-- C4: in the traversal run by `collection_delete_exec` (visitor `collection_delete_cb`, filter
`TSE_SELECTED` on the tree store flags), when the visitor returns `TRAVERSE_SKIP_CHILDS` for a
visited node `N`, the visit sequence of the sibling list of `N` is the visits of the elements
before `N`, then `N`, then the visits of the following siblings and their subtrees: nothing of
the subtree of `N` is passed to the visitor. A node where the visitor continues, or one that
the filter rejects, contributes the visits of its subtree, so the same holds at every depth. For
the tree `R -> [X -> [X1, X2], Y]` where the visitor skips children only at `X`, the visit
sequence is `R, X, Y`. The visits are those of the very traversal of `collection_delete_exec`:
recording them leaves the calls made unchanged. -/
theorem collection_delete_traverse_skip_childs (TSE_SELECTED : Nat)
    (data : CollectionDeleteData) :
    (∀ tree,
      (outliner_tree_traverse 0 TSE_SELECTED
        (visit_logged (fun te trace => collection_delete_cb te data trace)) tree ([], [])).1 =
      outliner_tree_traverse 0 TSE_SELECTED
        (fun te trace => collection_delete_cb te data trace) tree []) ∧
    (∀ (before : List TreeElement) (N : TreeElement) (rest : List TreeElement)
      (trace : List Call),
      outliner_tree_traverse_match 0 TSE_SELECTED N = true →
      (collection_delete_cb N data trace).1 = TreeTraversalAction.TRAVERSE_SKIP_CHILDS →
      collection_delete_visits TSE_SELECTED data (before ++ N :: rest) =
        collection_delete_visits TSE_SELECTED data before ++
          N :: collection_delete_visits TSE_SELECTED data rest) ∧
    (∀ (before : List TreeElement) (N : TreeElement) (rest : List TreeElement)
      (trace : List Call),
      outliner_tree_traverse_match 0 TSE_SELECTED N = true →
      (collection_delete_cb N data trace).1 = TreeTraversalAction.TRAVERSE_CONTINUE →
      collection_delete_visits TSE_SELECTED data (before ++ N :: rest) =
        collection_delete_visits TSE_SELECTED data before ++
          N :: (collection_delete_visits TSE_SELECTED data N.subtree ++
            collection_delete_visits TSE_SELECTED data rest)) ∧
    (∀ (before : List TreeElement) (N : TreeElement) (rest : List TreeElement),
      outliner_tree_traverse_match 0 TSE_SELECTED N = false →
      collection_delete_visits TSE_SELECTED data (before ++ N :: rest) =
        collection_delete_visits TSE_SELECTED data before ++
          (collection_delete_visits TSE_SELECTED data N.subtree ++
            collection_delete_visits TSE_SELECTED data rest)) ∧
    ((tree_preorder (exampleTree TSE_SELECTED)).map TreeElement.name =
        ["R", "X", "X1", "X2", "Y"] ∧
      (tree_preorder (exampleTree TSE_SELECTED)).map
          (fun te => (collection_delete_cb te (exampleDeleteData TSE_SELECTED) []).1) =
        [TreeTraversalAction.TRAVERSE_CONTINUE, TreeTraversalAction.TRAVERSE_SKIP_CHILDS,
         TreeTraversalAction.TRAVERSE_CONTINUE, TreeTraversalAction.TRAVERSE_CONTINUE,
         TreeTraversalAction.TRAVERSE_CONTINUE] ∧
      (collection_delete_visits TSE_SELECTED (exampleDeleteData TSE_SELECTED)
          (exampleTree TSE_SELECTED)).map TreeElement.name = ["R", "X", "Y"]) := by
  refine ⟨?_, ?_, ?_, ?_, ?_, ?_, ?_⟩
  · intro tree
    exact logged_traverse_fst 0 TSE_SELECTED _ tree ([], [])
  · intro before N rest trace hm hskip
    rw [collection_delete_cb_action N data trace []] at hskip
    rw [delete_visits_append, delete_visits_cons, if_pos hm, hskip]
  · intro before N rest trace hm hcont
    rw [collection_delete_cb_action N data trace []] at hcont
    rw [delete_visits_append, delete_visits_cons, if_pos hm, hcont]
  · intro before N rest hm
    rw [delete_visits_append, delete_visits_cons, hm]
    simp
  · simp [exampleTree, exampleElement, tree_preorder, TreeElement.name]
  · simp [exampleTree, exampleElement, tree_preorder, collection_delete_cb,
      outliner_scene_collection_from_tree_element, TreeElement.data, exampleDeleteData,
      BKE_collection_master, exampleScene, exampleMaster, exampleLeaf, SceneCollection.addr]
  · simp only [exampleTree, delete_visits_cons, delete_visits_nil, traverse_match_self, if_true]
    simp [exampleElement, collection_delete_cb,
      outliner_scene_collection_from_tree_element, TreeElement.data, exampleDeleteData,
      BKE_collection_master, exampleScene, exampleMaster, exampleLeaf, SceneCollection.addr,
      TreeElement.subtree, TreeElement.name, delete_visits_cons, delete_visits_nil,
      outliner_tree_traverse_match, TreeElement.tselem_flag, em]

/-- Witness for C4: among the siblings `[X -> [X1, X2], Y]` of the example tree, with mask 2, the
visitor skips the children of `X`, and the visits are `X` and `Y`. -/
theorem collection_delete_traverse_skip_childs_witness :
    collection_delete_visits 2 (exampleDeleteData 2)
      ([] ++ exampleElement 2 "X" (TreeElementData.other 0)
          [exampleElement 2 "X1"
            (TreeElementData.TSE_SCENE_COLLECTION (some (exampleLeaf 102 "B"))) [],
           exampleElement 2 "X2"
            (TreeElementData.TSE_SCENE_COLLECTION (some (exampleLeaf 103 "C"))) []] ::
        [exampleElement 2 "Y"
          (TreeElementData.TSE_SCENE_COLLECTION
            (some (SceneCollection.mk 101 "A" [exampleLeaf 102 "B"]))) []]) =
      collection_delete_visits 2 (exampleDeleteData 2) [] ++
        exampleElement 2 "X" (TreeElementData.other 0)
          [exampleElement 2 "X1"
            (TreeElementData.TSE_SCENE_COLLECTION (some (exampleLeaf 102 "B"))) [],
           exampleElement 2 "X2"
            (TreeElementData.TSE_SCENE_COLLECTION (some (exampleLeaf 103 "C"))) []] ::
        collection_delete_visits 2 (exampleDeleteData 2)
          [exampleElement 2 "Y"
            (TreeElementData.TSE_SCENE_COLLECTION
              (some (SceneCollection.mk 101 "A" [exampleLeaf 102 "B"]))) []] :=
  (collection_delete_traverse_skip_childs 2 (exampleDeleteData 2)).2.1 [] _ _ [] rfl rfl

end Outliner
